import Mathlib

/-!
# sfconnection: the serial-forwarder message codec

A shallow embedding of `message.go` (package `sfconnection`): the `Message`
struct, its factory, accessors, `String`, `Serialize` and `Deserialize`.

Conventions of the embedding

* `uint8` and `uint16` values are natural numbers; a conversion that can
  truncate in Go (`uint8(x)`, `byte(v >> 8)`) is written with an explicit
  `% 256`.
* A `[]byte` is a `List Nat`; the nil slice and the empty slice are both `[]`.
* A method with a pointer receiver that mutates the message returns the new
  message state; `Deserialize` returns the new state together with the Go
  `error` result (`none` is Go's `nil` error).
* `Serialize` returns the Go pair `([]byte, error)`.
* A method that assigns no field of its receiver (`New`, the getters,
  `String`, `Serialize`) is a function of the receiver.
* The pieces of the Go standard library the codec calls (`bytes.Reader`,
  `io.ReadFull`, `encoding/binary` in big-endian order, the verbs of
  `fmt.Sprintf`) are embedded next to the code that uses them, following
  their Go sources.
-/

namespace SFConnection

/-! ## Errors -/

/-- The error values `Serialize` and `Deserialize` can return. -/
inductive Error where
  /-- The value `errors.New("Message payload too long(%d)")` of `Serialize`. -/
  | payloadTooLong (n : Nat)
  /-- The value `errors.New("Payload length mismatch, header=%d, actual=%d")`. -/
  | lengthMismatch (header actual : Nat)
  /-- The read error `io.EOF`. -/
  | EOF
  /-- The read error `io.ErrUnexpectedEOF`. -/
  | ErrUnexpectedEOF
  deriving DecidableEq, Repr

/-! ## The standard-library readers and writers used by the codec -/

/-- The type `bytes.Reader`: the underlying slice `s` and the read index `i`. -/
structure Reader where
  s : List Nat
  i : Nat
  deriving DecidableEq, Repr

/-- The function `bytes.NewReader`. -/
def NewReader (b : List Nat) : Reader :=
  { s := b, i := 0 }

/-- The method `bytes.Reader.Len`: the number of unread bytes. -/
def Reader.Len (r : Reader) : Nat :=
  if r.i ≥ r.s.length then 0 else r.s.length - r.i

/-- The method `bytes.Reader.Read` called with a buffer of `n` bytes that are
all zero (a buffer fresh from `make`).  At the end of the input it returns
`io.EOF`, also when `n = 0` (its test `r.i >= int64(len(r.s))` comes first, in
every Go release since 1.7); otherwise it copies `min n (unread)` bytes.  The
result is the content of the buffer after the call, the count of bytes copied
and the advanced reader. -/
def Reader.Read (r : Reader) (n : Nat) : Except Error (List Nat × Nat × Reader) :=
  if r.i ≥ r.s.length then
    .error Error.EOF
  else
    let chunk := (r.s.drop r.i).take n
    .ok (chunk ++ List.replicate (n - chunk.length) 0, chunk.length,
      { r with i := r.i + chunk.length })

/-- The function `io.ReadFull` on a `bytes.Reader`, for a buffer of `n > 0`
bytes: `io.EOF` when nothing is left, `io.ErrUnexpectedEOF` when fewer than `n`
bytes are left (the second `Read` of its loop meets the end), and the `n`
bytes otherwise. -/
def ReadFull (r : Reader) (n : Nat) : Except Error (List Nat × Reader) :=
  match r.Read n with
  | .error e => .error e
  | .ok (b, cnt, r1) =>
    if cnt ≥ n then .ok (b, r1) else .error Error.ErrUnexpectedEOF

/-- The call `binary.Read(buf, binary.BigEndian, &x)` for `x` of type `uint8`. -/
def binaryReadUint8 (r : Reader) : Except Error (Nat × Reader) :=
  match ReadFull r 1 with
  | .error e => .error e
  | .ok (bs, r1) => .ok (bs.getD 0 0, r1)

/-- The call `binary.Read(buf, binary.BigEndian, &x)` for `x` of type `uint16`:
`uint16(b[1]) | uint16(b[0])<<8`. -/
def binaryReadUint16 (r : Reader) : Except Error (Nat × Reader) :=
  match ReadFull r 2 with
  | .error e => .error e
  | .ok (bs, r1) => .ok (bs.getD 0 0 * 256 + bs.getD 1 0, r1)

/-- The bytes `binary.Write(buf, binary.BigEndian, v)` appends for a `uint8`. -/
def binaryWriteUint8 (v : Nat) : List Nat :=
  [v]

/-- The bytes `binary.Write(buf, binary.BigEndian, v)` appends for a `uint16`:
`byte(v >> 8)` then `byte(v)`. -/
def binaryWriteUint16 (v : Nat) : List Nat :=
  [v / 256 % 256, v % 256]

/-! ## The message -/

/-- The struct `Message`. -/
structure Message where
  destination : Nat
  source : Nat
  sourceSet : Bool
  group : Nat
  groupSet : Bool
  ptype : Nat
  Payload : List Nat
  defaultSource : Nat
  defaultGroup : Nat
  deriving DecidableEq, Repr

/-- The zero value `new(Message)`. -/
def Message.zero : Message :=
  { destination := 0, source := 0, sourceSet := false, group := 0,
    groupSet := false, ptype := 0, Payload := [], defaultSource := 0,
    defaultGroup := 0 }

/-- The function `NewMessageFactory`. -/
def NewMessageFactory (defaultGroup defaultSource : Nat) : Message :=
  let msg := Message.zero
  let msg := { msg with defaultGroup := defaultGroup }
  let msg := { msg with defaultSource := defaultSource }
  msg

/-- The method `New`: the message also serves as a factory. -/
def Message.New (self : Message) : Message :=
  let msg := Message.zero
  let msg := { msg with defaultGroup := self.defaultGroup }
  let msg := { msg with defaultSource := self.defaultSource }
  msg

/-- The method `Type`. -/
def Message.Type (self : Message) : Nat :=
  self.ptype

/-- The method `SetType`. -/
def Message.SetType (self : Message) (ptype : Nat) : Message :=
  { self with ptype := ptype }

/-- The method `Group`. -/
def Message.Group (self : Message) : Nat :=
  if self.groupSet then self.group else self.defaultGroup

/-- The method `SetGroup`. -/
def Message.SetGroup (self : Message) (group : Nat) : Message :=
  { self with groupSet := true, group := group }

/-- The method `Destination`. -/
def Message.Destination (self : Message) : Nat :=
  self.destination

/-- The method `SetDestination`. -/
def Message.SetDestination (self : Message) (destination : Nat) : Message :=
  { self with destination := destination }

/-- The method `Source`. -/
def Message.Source (self : Message) : Nat :=
  if self.sourceSet then self.source else self.defaultSource

/-- The method `SetSource`. -/
def Message.SetSource (self : Message) (source : Nat) : Message :=
  { self with sourceSet := true, source := source }

/-- The assignment `self.Payload = payload` to the exported field. -/
def Message.SetPayload (self : Message) (payload : List Nat) : Message :=
  { self with Payload := payload }

/-- The method `Serialize`.  The writes to the `bytes.Buffer` cannot fail, so
the `panic` branches are not reachable and the buffer is the concatenation of
the written pieces. -/
def Message.Serialize (self : Message) : List Nat × Option Error :=
  if self.Payload.length > 255 - 8 then
    ([], some (Error.payloadTooLong self.Payload.length))
  else
    let buf : List Nat := []
    let buf := buf ++ binaryWriteUint8 0
    let buf := buf ++ binaryWriteUint16 self.Destination
    let buf := buf ++ binaryWriteUint16 self.Source
    let buf := buf ++ binaryWriteUint8 (self.Payload.length % 256)
    let buf := buf ++ binaryWriteUint8 self.Group
    let buf := buf ++ binaryWriteUint8 self.Type
    let buf := buf ++ self.Payload
    (buf, none)

/-- The method `Deserialize`: the message after the call and the returned
error. -/
def Message.Deserialize (self : Message) (data : List Nat) : Message × Option Error :=
  let buf := NewReader data
  match binaryReadUint8 buf with
  | .error err => (self, some err)
  | .ok (_dispatch, buf) =>
  match binaryReadUint16 buf with
  | .error err => (self, some err)
  | .ok (destination, buf) =>
  match binaryReadUint16 buf with
  | .error err => (self, some err)
  | .ok (source, buf) =>
  match binaryReadUint8 buf with
  | .error err => (self, some err)
  | .ok (length, buf) =>
  match binaryReadUint8 buf with
  | .error err => (self, some err)
  | .ok (group, buf) =>
  match binaryReadUint8 buf with
  | .error err => (self, some err)
  | .ok (ptype, buf) =>
  let buflen := buf.Len
  if buflen % 256 ≠ length then
    (self, some (Error.lengthMismatch length buflen))
  else
    match buf.Read buflen with
    | .error err => (self, some err)
    | .ok (payload, _, _) =>
      let self := self.SetDestination destination
      let self := self.SetSource source
      let self := self.SetGroup group
      let self := self.SetType ptype
      let self := self.SetPayload payload
      (self, none)

/-! ## Call sequences that leave source and group alone -/

/-- A call on a message other than `SetSource` and `SetGroup`: `New`, one of the
two plain setters, or an assignment to the exported field `Payload`. -/
inductive PlainOp where
  | New
  | SetDestination (destination : Nat)
  | SetType (ptype : Nat)
  | SetPayload (payload : List Nat)
  deriving DecidableEq, Repr

/-- The message a call leaves the caller with: the product of `New`, or the
receiver after a setter. -/
def PlainOp.apply (m : Message) : PlainOp → Message
  | PlainOp.New => m.New
  | PlainOp.SetDestination d => m.SetDestination d
  | PlainOp.SetType t => m.SetType t
  | PlainOp.SetPayload p => m.SetPayload p

/-- A sequence of such calls, each applied to the message the previous one
gave. -/
def runPlainOps (m : Message) (ops : List PlainOp) : Message :=
  ops.foldl PlainOp.apply m

/-! ## The formatting verbs of `fmt.Sprintf` used by `String` -/

/-- The digit table `udigits` of package `fmt`, used by the verb `%X`. -/
def udigits : List Char :=
  ['0', '1', '2', '3', '4', '5', '6', '7', '8', '9', 'A', 'B', 'C', 'D', 'E', 'F', 'X']

/-- The digit table `ldigits` of package `fmt`, used by the verb `%d`. -/
def ldigits : List Char :=
  ['0', '1', '2', '3', '4', '5', '6', '7', '8', '9', 'a', 'b', 'c', 'd', 'e', 'f', 'x']

/-- The digit loop of `fmt.fmtInteger` for a non-negative `u`: it writes the
digits right to left, `acc` being what is written so far, and stops with the
leading digit.  The first argument after the table bounds the rounds; the
buffer of `fmtInteger` has 68 bytes. -/
def fmtDigits (base : Nat) (digits : List Char) : Nat → Nat → List Char → List Char
  | 0, _, acc => acc
  | fuel + 1, u, acc =>
    if u ≥ base then
      fmtDigits base digits fuel (u / base) (digits.getD (u % base) '?' :: acc)
    else
      digits.getD u '?' :: acc

/-- The method `pad` of `fmt` with a width and without the minus flag: spaces
on the left up to the width (`fmtInteger` clears the zero flag before the
call). -/
def fmtPad (wid : Nat) (b : List Char) : List Char :=
  List.replicate (wid - b.length) ' ' ++ b

/-- The method `fmtInteger` of `fmt` for a non-negative `u`, a width `wid`, and
the flags `0` and space: with the zero flag the digits are filled with zeros
up to the width, less one when a sign position is asked for; the space flag
puts a space in the sign position; the result is padded to the width. -/
def fmtInteger (u base wid : Nat) (zero space : Bool) (digits : List Char) : List Char :=
  let prec := if zero then (if space then wid - 1 else wid) else 0
  let buf := fmtDigits base digits 68 u []
  let buf := List.replicate (prec - buf.length) '0' ++ buf
  let buf := if space then ' ' :: buf else buf
  fmtPad wid buf

/-- The method `fmtSbx` of `fmt` on a byte slice without flags (verb `%X`):
for each byte `c` the digits of `c >> 4` and `c & 0xF`, nothing in between. -/
def fmtSbx (b : List Nat) (digits : List Char) : List Char :=
  match b with
  | [] => []
  | c :: rest => digits.getD (c / 16) '?' :: digits.getD (c % 16) '?' :: fmtSbx rest digits

/-- The call `fmt.Sprintf("%04X->%04X[%02X]% 3d: %X", a, b, c, n, p)` for
`a`, `b` of type `uint16`, `c` of type `uint8`, `n` of type `int` and
non-negative, and `p` a byte slice. -/
def sprintfMessage (a b c n : Nat) (p : List Nat) : List Char :=
  fmtInteger a 16 4 true false udigits ++ ['-', '>'] ++
    fmtInteger b 16 4 true false udigits ++ ['['] ++
    fmtInteger c 16 2 true false udigits ++ [']'] ++
    fmtInteger n 10 3 false true ldigits ++ [':', ' '] ++
    fmtSbx p udigits

/-- The method `String`: it formats the fields `source`, `destination` and
`ptype`, the length of `Payload` and `Payload`. -/
def Message.String (self : Message) : String :=
  ⟨sprintfMessage self.source self.destination self.ptype self.Payload.length self.Payload⟩

/-! ## The string representation as the specification words it -/

/-- One uppercase hexadecimal digit. -/
def hexDigit (n : Nat) : Char :=
  udigits.getD n '?'

/-- One decimal digit. -/
def decDigit (n : Nat) : Char :=
  ldigits.getD n '?'

/-- A 16-bit value as 4 uppercase hex digits. -/
def hex4 (v : Nat) : List Char :=
  [hexDigit (v / 4096 % 16), hexDigit (v / 256 % 16), hexDigit (v / 16 % 16), hexDigit (v % 16)]

/-- An 8-bit value as 2 uppercase hex digits. -/
def hex2 (v : Nat) : List Char :=
  [hexDigit (v / 16 % 16), hexDigit (v % 16)]

/-- A byte sequence as uppercase hex with no separators. -/
def hexBytes (p : List Nat) : List Char :=
  (p.map hex2).flatten

/-- A length below 1000 as a decimal right-justified in exactly 3
characters. -/
def rightJustified3 (n : Nat) : List Char :=
  [if n < 100 then ' ' else decDigit (n / 100 % 10),
    if n < 10 then ' ' else decDigit (n / 10 % 10), decDigit (n % 10)]

/-- The text `SRC->DST[TYPE]LEN: PAYLOAD_HEX` with the length field
right-justified in exactly 3 characters and the source that `Source()`
reports. -/
def specString (m : Message) : String :=
  ⟨hex4 m.Source ++ ['-', '>'] ++ hex4 m.Destination ++ ['['] ++ hex2 m.Type ++ [']'] ++
    rightJustified3 m.Payload.length ++ [':', ' '] ++ hexBytes m.Payload⟩

/-- The length field as the format `% 3d` gives it for a length below 1000:
a space in the sign position, then the decimal digits, padded on the left
with spaces to 3 characters; 3 characters below 100, 4 from 100 on. -/
def signedLengthField (n : Nat) : List Char :=
  if n < 10 then [' ', ' ', decDigit n]
  else if n < 100 then [' ', decDigit (n / 10), decDigit (n % 10)]
  else [' ', decDigit (n / 100), decDigit (n / 10 % 10), decDigit (n % 10)]

/-! ## Call sequences of all instance operations -/

/-- A call on a message: `New`, a setter, an assignment to the exported field
`Payload`, `Serialize`, `String` or `Deserialize`. -/
inductive Op where
  | New
  | SetType (ptype : Nat)
  | SetGroup (group : Nat)
  | SetDestination (destination : Nat)
  | SetSource (source : Nat)
  | SetPayload (payload : List Nat)
  | Serialize
  | String
  | Deserialize (data : List Nat)
  deriving DecidableEq, Repr

/-- The message a call leaves the caller with: the product of `New`, the
receiver after a setter or after `Deserialize` (whether it fails or not), and
the receiver itself after `Serialize` and `String`, which assign no field. -/
def Op.apply (m : Message) : Op → Message
  | Op.New => m.New
  | Op.SetType t => m.SetType t
  | Op.SetGroup g => m.SetGroup g
  | Op.SetDestination d => m.SetDestination d
  | Op.SetSource s => m.SetSource s
  | Op.SetPayload p => m.SetPayload p
  | Op.Serialize => m
  | Op.String => m
  | Op.Deserialize data => (m.Deserialize data).1

/-- A sequence of calls, each applied to the message the previous one gave. -/
def runOps (m : Message) (ops : List Op) : Message :=
  ops.foldl Op.apply m

/-- Whether a call may call `SetSource`: `SetSource` itself and `Deserialize`,
which calls it when it succeeds. -/
def Op.mayCallSetSource : Op → Bool
  | Op.SetSource _ => true
  | Op.Deserialize _ => true
  | _ => false

/-- Whether a call may call `SetGroup`: `SetGroup` itself and `Deserialize`,
which calls it when it succeeds. -/
def Op.mayCallSetGroup : Op → Bool
  | Op.SetGroup _ => true
  | Op.Deserialize _ => true
  | _ => false

/-! ## Evaluation lemmas for the decoder and the encoder -/

/-- The decoder on an input of at least eight bytes. -/
theorem Deserialize_header (self : Message) (d0 d1 d2 d3 d4 d5 d6 d7 : Nat)
    (rest : List Nat) :
    self.Deserialize (d0 :: d1 :: d2 :: d3 :: d4 :: d5 :: d6 :: d7 :: rest)
      = if rest.length % 256 ≠ d5 then
          (self, some (Error.lengthMismatch d5 rest.length))
        else if rest = [] then
          (self, some Error.EOF)
        else
          ({ destination := d1 * 256 + d2, source := d3 * 256 + d4, sourceSet := true,
             group := d6, groupSet := true, ptype := d7, Payload := rest,
             defaultSource := self.defaultSource, defaultGroup := self.defaultGroup },
            none) := by
  simp [Message.Deserialize, NewReader, binaryReadUint8, binaryReadUint16, ReadFull,
    Reader.Read, Reader.Len]
  cases rest with
  | nil => simp
  | cons x xs =>
    simp [Message.SetDestination, Message.SetSource, Message.SetGroup, Message.SetType,
      Message.SetPayload]

/-- The decoder on an input shorter than the header: one of the two read
errors, and the message as it was. -/
theorem Deserialize_short (self : Message) (data : List Nat) (h : data.length < 8) :
    self.Deserialize data = (self, some Error.EOF) ∨
      self.Deserialize data = (self, some Error.ErrUnexpectedEOF) := by
  rcases data with _ | ⟨d0, _ | ⟨d1, _ | ⟨d2, _ | ⟨d3, _ | ⟨d4, _ | ⟨d5, _ | ⟨d6, _ | ⟨d7, rest⟩⟩⟩⟩⟩⟩⟩⟩
  case cons.cons.cons.cons.cons.cons.cons.cons =>
    simp at h
    omega
  all_goals
    simp [Message.Deserialize, NewReader, binaryReadUint8, binaryReadUint16, ReadFull,
      Reader.Read, Reader.Len]

/-- An input of at least eight bytes splits into its header bytes and the rest. -/
theorem exists_header (data : List Nat) (h : 8 ≤ data.length) :
    ∃ d0 d1 d2 d3 d4 d5 d6 d7 rest,
      data = d0 :: d1 :: d2 :: d3 :: d4 :: d5 :: d6 :: d7 :: rest := by
  rcases data with _ | ⟨d0, _ | ⟨d1, _ | ⟨d2, _ | ⟨d3, _ | ⟨d4, _ | ⟨d5, _ | ⟨d6, _ | ⟨d7, rest⟩⟩⟩⟩⟩⟩⟩⟩
  case cons.cons.cons.cons.cons.cons.cons.cons =>
    exact ⟨d0, d1, d2, d3, d4, d5, d6, d7, rest, rfl⟩
  all_goals
    simp at h

/-- The encoder on a payload within the bound. -/
theorem Serialize_of_le (m : Message) (h : m.Payload.length ≤ 247) :
    m.Serialize
      = ([0, m.Destination / 256 % 256, m.Destination % 256, m.Source / 256 % 256,
          m.Source % 256, m.Payload.length, m.Group, m.Type] ++ m.Payload, none) := by
  have h1 : ¬ (m.Payload.length > 255 - 8) := by omega
  have h2 : m.Payload.length % 256 = m.Payload.length := Nat.mod_eq_of_lt (by omega)
  simp [Message.Serialize, h1, h2, binaryWriteUint8, binaryWriteUint16]

/-- The encoder on a payload beyond the bound. -/
theorem Serialize_of_gt (m : Message) (h : 247 < m.Payload.length) :
    m.Serialize = ([], some (Error.payloadTooLong m.Payload.length)) := by
  have h1 : m.Payload.length > 255 - 8 := by omega
  simp [Message.Serialize, h1]

/-- Calls other than `SetSource` and `SetGroup` keep both set flags down and
both defaults as they are. -/
theorem runPlainOps_no_override (g s : Nat) (ops : List PlainOp) (m : Message)
    (h : m.sourceSet = false ∧ m.groupSet = false ∧ m.defaultSource = s ∧ m.defaultGroup = g) :
    (runPlainOps m ops).sourceSet = false ∧ (runPlainOps m ops).groupSet = false ∧
      (runPlainOps m ops).defaultSource = s ∧ (runPlainOps m ops).defaultGroup = g := by
  induction ops generalizing m with
  | nil => exact h
  | cons op ops ih =>
    obtain ⟨h1, h2, h3, h4⟩ := h
    have step : runPlainOps m (op :: ops) = runPlainOps (PlainOp.apply m op) ops := rfl
    rw [step]
    apply ih
    cases op with
    | New => exact ⟨rfl, rfl, h3, h4⟩
    | SetDestination d => exact ⟨h1, h2, h3, h4⟩
    | SetType t => exact ⟨h1, h2, h3, h4⟩
    | SetPayload p => exact ⟨h1, h2, h3, h4⟩

/-! ## The claims -/

/-- C1 (round trip, including the empty payload), evaluated where it breaks:
every message with an empty payload serializes without error to its eight
header bytes, and `Deserialize` of these bytes, on any message, returns
`io.EOF` and leaves that message as it was, so the round trip does not hold
for the empty payload.  The instance: the message from the factory
`(0x22, 0x0001)` with destination 2 and type 5 gives `00 00 02 00 01 00 22 05`,
which a fresh message of the same factory does not decode. -/
theorem roundtrip_empty_payload_fails (M T : Message) :
    (M.SetPayload []).Serialize
        = ([0, M.Destination / 256 % 256, M.Destination % 256, M.Source / 256 % 256,
            M.Source % 256, 0, M.Group, M.Type], none) ∧
      T.Deserialize (M.SetPayload []).Serialize.1 = (T, some Error.EOF) ∧
      ((((NewMessageFactory 0x22 1).New.SetDestination 2).SetType 5).SetPayload []).Serialize
        = ([0, 0, 2, 0, 1, 0, 0x22, 5], none) ∧
      (NewMessageFactory 0x22 1).New.Deserialize [0, 0, 2, 0, 1, 0, 0x22, 5]
        = ((NewMessageFactory 0x22 1).New, some Error.EOF) := by
  have hs : (M.SetPayload []).Serialize
      = ([0, M.Destination / 256 % 256, M.Destination % 256, M.Source / 256 % 256,
          M.Source % 256, 0, M.Group, M.Type], none) := by
    rw [Serialize_of_le _ (by simp [Message.SetPayload])]
    simp [Message.SetPayload, Message.Destination, Message.Source, Message.Group,
      Message.Type]
  refine ⟨hs, ?_, by decide, ?_⟩
  · rw [hs, Deserialize_header]
    simp
  · rw [Deserialize_header]
    decide

/-- C2 (wire layout): for a payload of `n ≤ 247` bytes `Serialize` returns no
error and exactly the `n + 8` bytes `[0, dest_hi, dest_lo, src_hi, src_lo, n,
group, type]` followed by the payload, where the two destination bytes and the
two source bytes are the big-endian bytes of the 16-bit values `Destination()`
and `Source()`, and the length byte is `n` itself. -/
theorem Serialize_wire_layout (m : Message) (h : m.Payload.length ≤ 247) :
    m.Serialize
        = ([0, m.Destination / 256 % 256, m.Destination % 256, m.Source / 256 % 256,
            m.Source % 256, m.Payload.length, m.Group, m.Type] ++ m.Payload, none) ∧
      m.Serialize.1.length = m.Payload.length + 8 ∧
      m.Serialize.1.drop 8 = m.Payload ∧
      m.Destination / 256 % 256 * 256 + m.Destination % 256 = m.Destination % 65536 ∧
      m.Source / 256 % 256 * 256 + m.Source % 256 = m.Source % 65536 := by
  rw [Serialize_of_le m h]
  refine ⟨rfl, ?_, ?_, ?_, ?_⟩
  · simp
  · simp
  · omega
  · omega

/-- C2, the example of the specification: factory `(0x22, 0x0001)`, destination
`0x0002`, type `0x05`, payload `[1, 2, 3]` gives `00 00 02 00 01 03 22 05 01 02
03`. -/
theorem Serialize_wire_layout_witness :
    ([1, 2, 3] : List Nat).length ≤ 247 ∧
      ((((NewMessageFactory 0x22 1).New.SetDestination 2).SetType 5).SetPayload
          [1, 2, 3]).Serialize
        = ([0x00, 0x00, 0x02, 0x00, 0x01, 0x03, 0x22, 0x05, 0x01, 0x02, 0x03], none) :=
  ⟨by decide,
    (Serialize_wire_layout
      ((((NewMessageFactory 0x22 1).New.SetDestination 2).SetType 5).SetPayload [1, 2, 3])
      (by decide)).1.trans (by decide)⟩

/-- C3 (length enforcement): `Serialize` returns an error exactly when the
payload is longer than 247 bytes, and exactly then its result is the pair of
the nil slice and the payload-too-long error; a 248-byte payload fails and a
247-byte payload succeeds. -/
theorem Serialize_length_enforcement (m : Message) :
    (m.Serialize.2.isSome = true ↔ 247 < m.Payload.length) ∧
      (m.Serialize.2.isSome = true ↔
        m.Serialize = ([], some (Error.payloadTooLong m.Payload.length))) ∧
      (m.SetPayload (List.replicate 248 0)).Serialize
        = ([], some (Error.payloadTooLong 248)) ∧
      (m.SetPayload (List.replicate 247 0)).Serialize.2 = none := by
  refine ⟨?_, ?_, ?_, ?_⟩
  · by_cases h : 247 < m.Payload.length
    · simp [Serialize_of_gt m h, h]
    · simp [Serialize_of_le m (by omega), h]
  · by_cases h : 247 < m.Payload.length
    · simp [Serialize_of_gt m h]
    · simp [Serialize_of_le m (by omega)]
  · have h : (m.SetPayload (List.replicate 248 0)).Payload.length = 248 := by
      simp only [Message.SetPayload, List.length_replicate]
    rw [Serialize_of_gt _ (by omega), h]
  · have h : (m.SetPayload (List.replicate 247 0)).Payload.length = 247 := by
      simp only [Message.SetPayload, List.length_replicate]
    rw [Serialize_of_le _ (by omega)]

/-- C4 (mismatch detection for inputs of any size), evaluated where it breaks:
on the 264-byte input whose length byte is 0 and which has 256 bytes after the
header, the declared length differs from the remaining count, yet `Deserialize`
returns no error and stores the 256 bytes as payload, because the remaining
count is compared after conversion to `uint8`. -/
theorem Deserialize_mismatch_undetected :
    ([0, 0, 2, 0, 1, 0, 0x22, 5] ++ List.replicate 256 7).getD 5 0
        ≠ ([0, 0, 2, 0, 1, 0, 0x22, 5] ++ List.replicate 256 7).length - 8 ∧
      ((NewMessageFactory 0x22 1).New.Deserialize
          ([0, 0, 2, 0, 1, 0, 0x22, 5] ++ List.replicate 256 7)).2 = none ∧
      ((NewMessageFactory 0x22 1).New.Deserialize
          ([0, 0, 2, 0, 1, 0, 0x22, 5] ++ List.replicate 256 7)).1.Payload
        = List.replicate 256 7 := by
  have hne : List.replicate 256 7 ≠ ([] : List Nat) := by
    intro h
    have h1 := congrArg List.length h
    rw [List.length_replicate] at h1
    exact absurd h1 (by decide)
  have hlen : ¬ ((List.replicate 256 7).length % 256 ≠ 0) := by
    rw [List.length_replicate]
    decide
  refine ⟨?_, ?_, ?_⟩
  · simp only [List.cons_append, List.nil_append, List.length_cons, List.length_replicate,
      List.getD_cons_succ, List.getD_cons_zero]
    decide
  · simp only [List.cons_append, List.nil_append]
    rw [Deserialize_header, if_neg hlen, if_neg hne]
  · simp only [List.cons_append, List.nil_append]
    rw [Deserialize_header, if_neg hlen, if_neg hne]

/-- C5 (empty payload decode), evaluated where it breaks: on every input of
exactly eight header bytes whose length byte is 0, `Deserialize` on any message
returns `io.EOF` and leaves the message as it was; the instance is the input
`00 00 02 00 01 00 22 05`. -/
theorem Deserialize_empty_payload_fails (self : Message) (d0 d1 d2 d3 d4 d6 d7 : Nat) :
    self.Deserialize [d0, d1, d2, d3, d4, 0, d6, d7] = (self, some Error.EOF) ∧
      (NewMessageFactory 0x22 1).Deserialize [0, 0, 2, 0, 1, 0, 0x22, 5]
        = (NewMessageFactory 0x22 1, some Error.EOF) := by
  constructor
  · rw [Deserialize_header]
    simp
  · rw [Deserialize_header]
    decide

/-- C6 (truncation): on every input shorter than eight bytes `Deserialize`
returns a read error, `io.EOF` or `io.ErrUnexpectedEOF`, hence never the
length-mismatch error: the header reads fail before the length comparison. -/
theorem Deserialize_truncated (self : Message) (data : List Nat) (h : data.length < 8) :
    ((self.Deserialize data).2 = some Error.EOF ∨
        (self.Deserialize data).2 = some Error.ErrUnexpectedEOF) ∧
      ∀ header actual, (self.Deserialize data).2 ≠ some (Error.lengthMismatch header actual) := by
  rcases Deserialize_short self data h with h1 | h1
  · rw [h1]
    exact ⟨Or.inl rfl, fun _ _ => by simp⟩
  · rw [h1]
    exact ⟨Or.inr rfl, fun _ _ => by simp⟩

/-- C6, the example of the specification: a five-byte buffer, whose byte at
offset 5 is missing, fails with a read error. -/
theorem Deserialize_truncated_witness :
    ([0, 0, 2, 0, 1] : List Nat).length < 8 ∧
      (((NewMessageFactory 0x22 1).Deserialize [0, 0, 2, 0, 1]).2 = some Error.EOF ∨
        ((NewMessageFactory 0x22 1).Deserialize [0, 0, 2, 0, 1]).2
          = some Error.ErrUnexpectedEOF) :=
  ⟨by decide, (Deserialize_truncated (NewMessageFactory 0x22 1) [0, 0, 2, 0, 1] (by decide)).1⟩

/-- C7 (atomicity of decode failure): whenever `Deserialize` returns an error,
for any message state and any input, the message after the call is the message
before the call, in every field. -/
theorem Deserialize_error_unchanged (self : Message) (data : List Nat)
    (h : (self.Deserialize data).2 ≠ none) :
    (self.Deserialize data).1 = self := by
  by_cases hlen : data.length < 8
  · rcases Deserialize_short self data hlen with h1 | h1 <;> rw [h1]
  · obtain ⟨d0, d1, d2, d3, d4, d5, d6, d7, rest, rfl⟩ := exists_header data (by omega)
    rw [Deserialize_header] at h ⊢
    by_cases c1 : rest.length % 256 ≠ d5
    · rw [if_pos c1]
    · rw [if_neg c1] at h ⊢
      by_cases c2 : rest = []
      · rw [if_pos c2]
      · rw [if_neg c2] at h
        exact absurd rfl h

/-- C7 on a message holding overrides and a payload, and an input whose length
byte 5 disagrees with its 6 trailing bytes: the error is the length mismatch
and the message is unchanged. -/
theorem Deserialize_error_unchanged_witness :
    (((((NewMessageFactory 0x22 1).SetSource 7).SetGroup 9).SetPayload [4, 4]).Deserialize
        [0, 0, 2, 0, 1, 5, 0x22, 5, 1, 2, 3, 4, 5, 6]).2
        = some (Error.lengthMismatch 5 6) ∧
      (((((NewMessageFactory 0x22 1).SetSource 7).SetGroup 9).SetPayload [4, 4]).Deserialize
        [0, 0, 2, 0, 1, 5, 0x22, 5, 1, 2, 3, 4, 5, 6]).1
        = (((NewMessageFactory 0x22 1).SetSource 7).SetGroup 9).SetPayload [4, 4] :=
  ⟨by rw [Deserialize_header]; decide,
    Deserialize_error_unchanged
      ((((NewMessageFactory 0x22 1).SetSource 7).SetGroup 9).SetPayload [4, 4])
      [0, 0, 2, 0, 1, 5, 0x22, 5, 1, 2, 3, 4, 5, 6] (by rw [Deserialize_header]; decide)⟩

/-- C8 (decode postcondition): whenever `Deserialize` returns no error, for any
message state and any input, afterwards `Destination()` is the big-endian
value of bytes 1-2, `Source()` that of bytes 3-4, `Group()` is byte 6, `Type()`
is byte 7 and `Payload` is the input from offset 8 on; source and group are
stored as overrides with their set flags raised, so the accessors do not
depend on the defaults of the message. -/
theorem Deserialize_postcondition (self : Message) (data : List Nat)
    (h : (self.Deserialize data).2 = none) :
    (self.Deserialize data).1.Destination = data.getD 1 0 * 256 + data.getD 2 0 ∧
      (self.Deserialize data).1.Source = data.getD 3 0 * 256 + data.getD 4 0 ∧
      (self.Deserialize data).1.Group = data.getD 6 0 ∧
      (self.Deserialize data).1.Type = data.getD 7 0 ∧
      (self.Deserialize data).1.Payload = data.drop 8 ∧
      (self.Deserialize data).1.sourceSet = true ∧
      (self.Deserialize data).1.source = data.getD 3 0 * 256 + data.getD 4 0 ∧
      (self.Deserialize data).1.groupSet = true ∧
      (self.Deserialize data).1.group = data.getD 6 0 := by
  by_cases hlen : data.length < 8
  · rcases Deserialize_short self data hlen with h1 | h1 <;> rw [h1] at h <;> simp at h
  · obtain ⟨d0, d1, d2, d3, d4, d5, d6, d7, rest, rfl⟩ := exists_header data (by omega)
    rw [Deserialize_header] at h ⊢
    by_cases c1 : rest.length % 256 ≠ d5
    · rw [if_pos c1] at h
      simp at h
    · rw [if_neg c1] at h ⊢
      by_cases c2 : rest = []
      · rw [if_pos c2] at h
        simp at h
      · rw [if_neg c2]
        simp [Message.Destination, Message.Source, Message.Group, Message.Type]

/-- C8 on a message whose defaults `(0x22, 0x0001)` equal the source and group
carried by the input: the decoded source and group are marked set. -/
theorem Deserialize_postcondition_witness :
    ((NewMessageFactory 0x22 1).Deserialize [0, 0, 2, 0, 1, 3, 0x22, 5, 1, 2, 3]).2 = none ∧
      ((NewMessageFactory 0x22 1).Deserialize [0, 0, 2, 0, 1, 3, 0x22, 5, 1, 2, 3]).1
        = { destination := 2, source := 1, sourceSet := true, group := 0x22,
            groupSet := true, ptype := 5, Payload := [1, 2, 3], defaultSource := 1,
            defaultGroup := 0x22 } ∧
      ((NewMessageFactory 0x22 1).Deserialize
          [0, 0, 2, 0, 1, 3, 0x22, 5, 1, 2, 3]).1.Destination
        = ([0, 0, 2, 0, 1, 3, 0x22, 5, 1, 2, 3] : List Nat).getD 1 0 * 256
          + ([0, 0, 2, 0, 1, 3, 0x22, 5, 1, 2, 3] : List Nat).getD 2 0 :=
  ⟨by rw [Deserialize_header]; decide, by rw [Deserialize_header]; decide,
    (Deserialize_postcondition (NewMessageFactory 0x22 1)
      [0, 0, 2, 0, 1, 3, 0x22, 5, 1, 2, 3] (by rw [Deserialize_header]; decide)).1⟩

/-- C9 as stated fails: on the 256-byte input with length byte 248 and 248
bytes after the header `Deserialize` returns no error, the payload has 248
bytes, more than 247, and `Serialize` of the decoded message returns the
payload-too-long error. -/
theorem Deserialize_payload_bound_counterexample :
    ((NewMessageFactory 0x22 1).Deserialize
        ([0, 0, 2, 0, 1, 248, 0x22, 5] ++ List.replicate 248 7)).2 = none ∧
      ¬ (((NewMessageFactory 0x22 1).Deserialize
        ([0, 0, 2, 0, 1, 248, 0x22, 5] ++ List.replicate 248 7)).1.Payload.length ≤ 247) ∧
      ((NewMessageFactory 0x22 1).Deserialize
        ([0, 0, 2, 0, 1, 248, 0x22, 5] ++ List.replicate 248 7)).1.Serialize.2
        = some (Error.payloadTooLong 248) := by
  have hne : List.replicate 248 7 ≠ ([] : List Nat) := by
    intro h
    have h1 := congrArg List.length h
    rw [List.length_replicate] at h1
    exact absurd h1 (by decide)
  have hlen : ¬ ((List.replicate 248 7).length % 256 ≠ 248) := by
    rw [List.length_replicate]
    decide
  simp only [List.cons_append, List.nil_append]
  rw [Deserialize_header, if_neg hlen, if_neg hne]
  refine ⟨rfl, ?_, ?_⟩
  · simp only [List.length_replicate]
    decide
  · rw [Serialize_of_gt _ (by simp only [List.length_replicate]; decide)]
    simp only [List.length_replicate]

/-- C9 as amended: for every input of at most 263 bytes on which `Deserialize`
returns no error, the payload length equals the declared length byte and is at
most 255; it is at most 247, and `Serialize` of the decoded message returns no
error, exactly when the input has at most 255 bytes. -/
theorem Deserialize_payload_length (self : Message) (data : List Nat)
    (hlen : data.length ≤ 263) (h : (self.Deserialize data).2 = none) :
    (self.Deserialize data).1.Payload.length = data.getD 5 0 ∧
      (self.Deserialize data).1.Payload.length ≤ 255 ∧
      ((self.Deserialize data).1.Payload.length ≤ 247 ↔ data.length ≤ 255) ∧
      ((self.Deserialize data).1.Serialize.2 = none ↔ data.length ≤ 255) := by
  by_cases hs : data.length < 8
  · rcases Deserialize_short self data hs with h1 | h1 <;> rw [h1] at h <;> simp at h
  · obtain ⟨d0, d1, d2, d3, d4, d5, d6, d7, rest, rfl⟩ := exists_header data (by omega)
    rw [Deserialize_header] at h ⊢
    by_cases c1 : rest.length % 256 ≠ d5
    · rw [if_pos c1] at h
      simp at h
    · rw [if_neg c1] at h ⊢
      by_cases c2 : rest = []
      · rw [if_pos c2] at h
        simp at h
      · rw [if_neg c2]
        simp only [List.length_cons] at hlen
        have c3 : rest.length % 256 = d5 := not_not.mp c1
        have c4 : rest.length % 256 = rest.length := Nat.mod_eq_of_lt (by omega)
        refine ⟨?_, ?_, ?_, ?_⟩
        · simp only [List.getD_cons_succ, List.getD_cons_zero]
          omega
        · show rest.length ≤ 255
          omega
        · simp only [List.length_cons]
          omega
        · by_cases c5 : rest.length ≤ 247
          · rw [Serialize_of_le _ c5]
            simp only [List.length_cons, true_iff]
            omega
          · rw [Serialize_of_gt _ (by show 247 < rest.length; omega)]
            simp only [List.length_cons]
            constructor
            · intro h0
              simp at h0
            · intro h0
              omega

/-- C9 as amended, on the example of the specification: the 11-byte input with
length byte 3 decodes to a payload of 3 bytes, which serializes again. -/
theorem Deserialize_payload_length_witness :
    ([0, 0, 2, 0, 1, 3, 0x22, 5, 1, 2, 3] : List Nat).length ≤ 263 ∧
      ((NewMessageFactory 0x22 1).Deserialize [0, 0, 2, 0, 1, 3, 0x22, 5, 1, 2, 3]).2 = none ∧
      ((NewMessageFactory 0x22 1).Deserialize
          [0, 0, 2, 0, 1, 3, 0x22, 5, 1, 2, 3]).1.Payload.length
        = ([0, 0, 2, 0, 1, 3, 0x22, 5, 1, 2, 3] : List Nat).getD 5 0 :=
  ⟨by decide, by rw [Deserialize_header]; decide,
    (Deserialize_payload_length (NewMessageFactory 0x22 1)
      [0, 0, 2, 0, 1, 3, 0x22, 5, 1, 2, 3] (by decide)
      (by rw [Deserialize_header]; decide)).1⟩

/-- C10 (default substitution): a message obtained from `NewMessageFactory g s`
by any sequence of `New`, `SetDestination`, `SetType` and payload assignments,
so without a call of `SetSource` or `SetGroup`, and holding a payload of at
most 247 bytes, serializes without error with the big-endian bytes of `s` at
offsets 3 and 4 and `g` at offset 6. -/
theorem Serialize_default_substitution (g s : Nat) (ops : List PlainOp)
    (h : (runPlainOps (NewMessageFactory g s) ops).Payload.length ≤ 247) :
    (runPlainOps (NewMessageFactory g s) ops).Serialize.2 = none ∧
      (runPlainOps (NewMessageFactory g s) ops).Serialize.1.getD 3 0 = s / 256 % 256 ∧
      (runPlainOps (NewMessageFactory g s) ops).Serialize.1.getD 4 0 = s % 256 ∧
      (runPlainOps (NewMessageFactory g s) ops).Serialize.1.getD 6 0 = g ∧
      (runPlainOps (NewMessageFactory g s) ops).Serialize.1.getD 3 0 * 256
          + (runPlainOps (NewMessageFactory g s) ops).Serialize.1.getD 4 0
        = s % 65536 := by
  obtain ⟨h1, h2, h3, h4⟩ :=
    runPlainOps_no_override g s ops (NewMessageFactory g s) ⟨rfl, rfl, rfl, rfl⟩
  rw [Serialize_of_le _ h]
  simp only [Message.Source, Message.Group, h1, h2, h3, h4, List.cons_append,
    List.getD_cons_succ, List.getD_cons_zero]
  simp only [Bool.false_eq_true, if_false, true_and]
  omega

/-- C10 on the example of the specification: factory `(0x22, 0x0001)`, a
message made by `New`, destination 2, type 5, payload `[1, 2, 3]`; the output
carries `00 01` at offsets 3-4 and `22` at offset 6. -/
theorem Serialize_default_substitution_witness :
    (runPlainOps (NewMessageFactory 0x22 1)
        [PlainOp.New, PlainOp.SetDestination 2, PlainOp.SetType 5,
          PlainOp.SetPayload [1, 2, 3]]).Payload.length ≤ 247 ∧
      (runPlainOps (NewMessageFactory 0x22 1)
        [PlainOp.New, PlainOp.SetDestination 2, PlainOp.SetType 5,
          PlainOp.SetPayload [1, 2, 3]]).Serialize
        = ([0x00, 0x00, 0x02, 0x00, 0x01, 0x03, 0x22, 0x05, 0x01, 0x02, 0x03], none) ∧
      (runPlainOps (NewMessageFactory 0x22 1)
        [PlainOp.New, PlainOp.SetDestination 2, PlainOp.SetType 5,
          PlainOp.SetPayload [1, 2, 3]]).Serialize.1.getD 6 0 = 0x22 :=
  ⟨by decide, by decide,
    (Serialize_default_substitution 0x22 1
      [PlainOp.New, PlainOp.SetDestination 2, PlainOp.SetType 5,
        PlainOp.SetPayload [1, 2, 3]] (by decide)).2.2.2.1⟩

/-! ## Evaluation lemmas for the string representation and the call sequences -/

theorem fmtDigits_succ (base : Nat) (digits : List Char) (fuel u : Nat) (acc : List Char) :
    fmtDigits base digits (fuel + 1) u acc
      = if u ≥ base then
          fmtDigits base digits fuel (u / base) (digits.getD (u % base) '?' :: acc)
        else digits.getD u '?' :: acc := rfl

theorem fmtInteger_hex4 (v : Nat) (h : v < 65536) :
    fmtInteger v 16 4 true false udigits = hex4 v := by
  have e : (68 : Nat) = 64 + 1 + 1 + 1 + 1 := rfl
  have z : udigits.getD 0 '?' = '0' := rfl
  unfold fmtInteger fmtPad hex4 hexDigit
  rw [e]
  simp only [fmtDigits_succ]
  by_cases h1 : v < 16
  · have c1 : ¬ (v ≥ 16) := by omega
    have a1 : v / 4096 % 16 = 0 := by omega
    have a2 : v / 256 % 16 = 0 := by omega
    have a3 : v / 16 % 16 = 0 := by omega
    have a4 : v % 16 = v := by omega
    simp [c1, a1, a2, a3, a4, z, List.replicate]
    rfl
  · by_cases h2 : v < 256
    · have c1 : v ≥ 16 := by omega
      have c2 : ¬ (v / 16 ≥ 16) := by omega
      have a1 : v / 4096 % 16 = 0 := by omega
      have a2 : v / 256 % 16 = 0 := by omega
      have a3 : v / 16 % 16 = v / 16 := by omega
      simp [c1, c2, a1, a2, a3, z, List.replicate]
      rfl
    · by_cases h3 : v < 4096
      · have c1 : v ≥ 16 := by omega
        have c2 : v / 16 ≥ 16 := by omega
        have c3 : ¬ (v / 16 / 16 ≥ 16) := by omega
        have a1 : v / 4096 % 16 = 0 := by omega
        have a2 : v / 256 % 16 = v / 16 / 16 := by omega
        simp [c1, c2, c3, a1, a2, z, List.replicate]
        rfl
      · have c1 : v ≥ 16 := by omega
        have c2 : v / 16 ≥ 16 := by omega
        have c3 : v / 16 / 16 ≥ 16 := by omega
        have c4 : ¬ (v / 16 / 16 / 16 ≥ 16) := by omega
        have a1 : v / 4096 % 16 = v / 16 / 16 / 16 := by omega
        have a2 : v / 256 % 16 = v / 16 / 16 % 16 := by omega
        simp [c1, c2, c3, c4, a1, a2, z, List.replicate]

theorem fmtInteger_hex2 (v : Nat) (h : v < 256) :
    fmtInteger v 16 2 true false udigits = hex2 v := by
  have e : (68 : Nat) = 66 + 1 + 1 := rfl
  have z : udigits.getD 0 '?' = '0' := rfl
  unfold fmtInteger fmtPad hex2 hexDigit
  rw [e]
  simp only [fmtDigits_succ]
  by_cases h1 : v < 16
  · have c1 : ¬ (v ≥ 16) := by omega
    have a3 : v / 16 % 16 = 0 := by omega
    have a4 : v % 16 = v := by omega
    simp [c1, a3, a4, z, List.replicate]
    rfl
  · have c1 : v ≥ 16 := by omega
    have c2 : ¬ (v / 16 ≥ 16) := by omega
    have a3 : v / 16 % 16 = v / 16 := by omega
    simp [c1, c2, a3, z, List.replicate]

theorem fmtInteger_length (n : Nat) (h : n < 1000) :
    fmtInteger n 10 3 false true ldigits = signedLengthField n := by
  have e : (68 : Nat) = 65 + 1 + 1 + 1 := rfl
  unfold fmtInteger fmtPad signedLengthField decDigit
  rw [e]
  simp only [fmtDigits_succ]
  by_cases h1 : n < 10
  · have c1 : ¬ (n ≥ 10) := by omega
    simp [c1, h1, List.replicate]
  · by_cases h2 : n < 100
    · have c1 : n ≥ 10 := by omega
      have c2 : ¬ (n / 10 ≥ 10) := by omega
      simp [c1, c2, h1, h2, List.replicate]
    · have c1 : n ≥ 10 := by omega
      have c2 : n / 10 ≥ 10 := by omega
      have c3 : ¬ (n / 10 / 10 ≥ 10) := by omega
      have a1 : n / 100 = n / 10 / 10 := by omega
      simp [c1, c2, c3, h1, h2, a1, List.replicate]

theorem fmtSbx_hexBytes (p : List Nat) (h : ∀ b ∈ p, b < 256) :
    fmtSbx p udigits = hexBytes p := by
  induction p with
  | nil => rfl
  | cons c rest ih =>
    have hc : c < 256 := h c (List.mem_cons_self c rest)
    have a1 : c / 16 % 16 = c / 16 := by omega
    have ih1 := ih (fun b hb => h b (List.mem_cons_of_mem c hb))
    simp only [fmtSbx, hexBytes, List.map_cons, List.flatten_cons, hex2, hexDigit, a1,
      List.cons_append, List.nil_append]
    rw [ih1]
    rfl

/-- The text of `String` on a message whose fields are in the range of their
Go types. -/
theorem String_eq (m : Message) (hS : m.source < 65536) (hD : m.destination < 65536)
    (hT : m.ptype < 256) (hP : ∀ b ∈ m.Payload, b < 256) (hL : m.Payload.length < 1000) :
    m.String
      = ⟨hex4 m.source ++ ['-', '>'] ++ hex4 m.destination ++ ['['] ++ hex2 m.ptype ++ [']'] ++
          signedLengthField m.Payload.length ++ [':', ' '] ++ hexBytes m.Payload⟩ := by
  unfold Message.String sprintfMessage
  rw [fmtInteger_hex4 _ hS, fmtInteger_hex4 _ hD, fmtInteger_hex2 _ hT,
    fmtInteger_length _ hL, fmtSbx_hexBytes _ hP]

/-- The decoder keeps both defaults, whether it fails or not. -/
theorem Deserialize_defaults (self : Message) (data : List Nat) :
    (self.Deserialize data).1.defaultSource = self.defaultSource ∧
      (self.Deserialize data).1.defaultGroup = self.defaultGroup := by
  by_cases hlen : data.length < 8
  · rcases Deserialize_short self data hlen with h1 | h1 <;> rw [h1] <;> exact ⟨rfl, rfl⟩
  · obtain ⟨d0, d1, d2, d3, d4, d5, d6, d7, rest, rfl⟩ := exists_header data (by omega)
    rw [Deserialize_header]
    split_ifs <;> exact ⟨rfl, rfl⟩

/-- Every call keeps both defaults: the receiver keeps its own, and the
product of `New` carries those of its receiver. -/
theorem Op.apply_defaults (m : Message) (op : Op) :
    (op.apply m).defaultSource = m.defaultSource ∧
      (op.apply m).defaultGroup = m.defaultGroup := by
  cases op with
  | Deserialize data => exact Deserialize_defaults m data
  | _ => exact ⟨rfl, rfl⟩

/-- A sequence of calls keeps both defaults. -/
theorem runOps_defaults (ops : List Op) (m : Message) :
    (runOps m ops).defaultSource = m.defaultSource ∧
      (runOps m ops).defaultGroup = m.defaultGroup := by
  induction ops generalizing m with
  | nil => exact ⟨rfl, rfl⟩
  | cons op ops ih =>
    have step : runOps m (op :: ops) = runOps (Op.apply m op) ops := rfl
    rw [step, (ih (Op.apply m op)).1, (ih (Op.apply m op)).2]
    exact Op.apply_defaults m op

/-- Calls that cannot call `SetSource` keep the source flag down. -/
theorem runOps_sourceSet (ops : List Op) (m : Message)
    (h : ∀ op ∈ ops, op.mayCallSetSource = false) (hm : m.sourceSet = false) :
    (runOps m ops).sourceSet = false := by
  induction ops generalizing m with
  | nil => exact hm
  | cons op ops ih =>
    have step : runOps m (op :: ops) = runOps (Op.apply m op) ops := rfl
    rw [step]
    apply ih _ (fun o ho => h o (List.mem_cons_of_mem op ho))
    have hop := h op (List.mem_cons_self op ops)
    cases op <;> first | exact hm | rfl | simp [Op.mayCallSetSource] at hop

/-- Calls that cannot call `SetGroup` keep the group flag down. -/
theorem runOps_groupSet (ops : List Op) (m : Message)
    (h : ∀ op ∈ ops, op.mayCallSetGroup = false) (hm : m.groupSet = false) :
    (runOps m ops).groupSet = false := by
  induction ops generalizing m with
  | nil => exact hm
  | cons op ops ih =>
    have step : runOps m (op :: ops) = runOps (Op.apply m op) ops := rfl
    rw [step]
    apply ih _ (fun o ho => h o (List.mem_cons_of_mem op ho))
    have hop := h op (List.mem_cons_self op ops)
    cases op <;> first | exact hm | rfl | simp [Op.mayCallSetGroup] at hop

/-! ## The claims, continued -/

/-- C11 (override precedence): for every message, whatever its defaults and
state, `Source()` after `SetSource(x)` is `x` and `Group()` after `SetGroup(y)`
is `y`; when a setter is called again the last value wins; and a message
obtained from `NewMessageFactory g s` by calls none of which can call
`SetSource` reports `s` as `Source()`, likewise `g` as `Group()` when none can
call `SetGroup`. -/
theorem override_precedence (m : Message) (x x2 y y2 g s : Nat) (opsS opsG : List Op)
    (hS : ∀ op ∈ opsS, op.mayCallSetSource = false)
    (hG : ∀ op ∈ opsG, op.mayCallSetGroup = false) :
    (m.SetSource x).Source = x ∧
      (m.SetGroup y).Group = y ∧
      ((m.SetSource x).SetSource x2).Source = x2 ∧
      ((m.SetGroup y).SetGroup y2).Group = y2 ∧
      (runOps (NewMessageFactory g s) opsS).Source = s ∧
      (runOps (NewMessageFactory g s) opsG).Group = g := by
  refine ⟨rfl, rfl, rfl, rfl, ?_, ?_⟩
  · have h1 := runOps_sourceSet opsS (NewMessageFactory g s) hS rfl
    have h2 := (runOps_defaults opsS (NewMessageFactory g s)).1
    simp only [Message.Source, h1, h2]
    rfl
  · have h1 := runOps_groupSet opsG (NewMessageFactory g s) hG rfl
    have h2 := (runOps_defaults opsG (NewMessageFactory g s)).2
    simp only [Message.Group, h1, h2]
    rfl

/-- C11 on the factory `(0x22, 0x0001)`: after `SetGroup(9)`, `New`,
`SetDestination(2)`, `Serialize` the source is still the default `0x0001`, and
after `SetSource(7)`, `SetType(5)`, `String` the group is still the default
`0x22`; on a message with default source 1, `SetSource(7)` gives `Source()`
7. -/
theorem override_precedence_witness :
    (∀ op ∈ [Op.SetGroup 9, Op.New, Op.SetDestination 2, Op.Serialize],
        op.mayCallSetSource = false) ∧
      (∀ op ∈ [Op.SetSource 7, Op.SetType 5, Op.String], op.mayCallSetGroup = false) ∧
      ((NewMessageFactory 0x22 1).SetSource 7).Source = 7 ∧
      (runOps (NewMessageFactory 0x22 1)
        [Op.SetGroup 9, Op.New, Op.SetDestination 2, Op.Serialize]).Source = 1 ∧
      (runOps (NewMessageFactory 0x22 1) [Op.SetSource 7, Op.SetType 5, Op.String]).Group
        = 0x22 :=
  ⟨by decide, by decide,
    (override_precedence (NewMessageFactory 0x22 1) 7 8 9 10 0x22 1
      [Op.SetGroup 9, Op.New, Op.SetDestination 2, Op.Serialize]
      [Op.SetSource 7, Op.SetType 5, Op.String] (by decide) (by decide)).1,
    (override_precedence (NewMessageFactory 0x22 1) 7 8 9 10 0x22 1
      [Op.SetGroup 9, Op.New, Op.SetDestination 2, Op.Serialize]
      [Op.SetSource 7, Op.SetType 5, Op.String] (by decide) (by decide)).2.2.2.2.1,
    (override_precedence (NewMessageFactory 0x22 1) 7 8 9 10 0x22 1
      [Op.SetGroup 9, Op.New, Op.SetDestination 2, Op.Serialize]
      [Op.SetSource 7, Op.SetType 5, Op.String] (by decide) (by decide)).2.2.2.2.2⟩

/-- C12 (factory creation): for every message `T`, whatever it holds, `T.New()`
is the empty message with the defaults of `T`: no source or group override, so
`Source()` and `Group()` are the defaults of `T`, destination 0, type 0 and an
empty payload; `New` assigns no field of `T`.  `NewMessageFactory g s` is the
empty message with defaults `g` and `s`. -/
theorem New_is_empty_with_defaults (T : Message) (g s : Nat) :
    T.New = { destination := 0, source := 0, sourceSet := false, group := 0,
              groupSet := false, ptype := 0, Payload := [],
              defaultSource := T.defaultSource, defaultGroup := T.defaultGroup } ∧
      T.New.Source = T.defaultSource ∧ T.New.Group = T.defaultGroup ∧
      T.New.Destination = 0 ∧ T.New.Type = 0 ∧ T.New.Payload = [] ∧
      NewMessageFactory g s
        = { destination := 0, source := 0, sourceSet := false, group := 0,
            groupSet := false, ptype := 0, Payload := [],
            defaultSource := s, defaultGroup := g } ∧
      (NewMessageFactory g s).Source = s ∧ (NewMessageFactory g s).Group = g ∧
      (NewMessageFactory g s).New = NewMessageFactory g s :=
  ⟨rfl, rfl, rfl, rfl, rfl, rfl, rfl, rfl, rfl, rfl⟩

/-- C13 (the set flag is not exposed), evaluated where it breaks: `Serialize`
depends on no more than `Destination()`, `Source()`, `Group()`, `Type()` and
`Payload`, but `String` prints the field `source`: a fresh message of the
factory `(0x22, 0x0001)` and the same message after `SetSource(0x0001)` agree
on the five observations and on `Serialize`, and render as
`0000->0000[00]  0: ` and `0001->0000[00]  0: `. -/
theorem String_exposes_unset_source :
    (∃ f : Nat → Nat → Nat → Nat → List Nat → List Nat × Option Error,
        ∀ m : Message, m.Serialize = f m.Destination m.Source m.Group m.Type m.Payload) ∧
      (NewMessageFactory 0x22 1).New.Destination
        = ((NewMessageFactory 0x22 1).New.SetSource 1).Destination ∧
      (NewMessageFactory 0x22 1).New.Source
        = ((NewMessageFactory 0x22 1).New.SetSource 1).Source ∧
      (NewMessageFactory 0x22 1).New.Group
        = ((NewMessageFactory 0x22 1).New.SetSource 1).Group ∧
      (NewMessageFactory 0x22 1).New.Type
        = ((NewMessageFactory 0x22 1).New.SetSource 1).Type ∧
      (NewMessageFactory 0x22 1).New.Payload
        = ((NewMessageFactory 0x22 1).New.SetSource 1).Payload ∧
      (NewMessageFactory 0x22 1).New.Serialize
        = ((NewMessageFactory 0x22 1).New.SetSource 1).Serialize ∧
      (NewMessageFactory 0x22 1).New.String = "0000->0000[00]  0: " ∧
      ((NewMessageFactory 0x22 1).New.SetSource 1).String = "0001->0000[00]  0: " := by
  refine ⟨⟨fun d s g t p =>
      if p.length > 255 - 8 then ([], some (Error.payloadTooLong p.length))
      else ([] ++ binaryWriteUint8 0 ++ binaryWriteUint16 d ++ binaryWriteUint16 s ++
          binaryWriteUint8 (p.length % 256) ++ binaryWriteUint8 g ++ binaryWriteUint8 t ++ p,
        none), fun m => rfl⟩, ?_, ?_, ?_, ?_, ?_, ?_, ?_, ?_⟩ <;> decide

set_option maxRecDepth 100000 in
/-- C14 as stated fails: the message with source `0x0001` (set), destination
`0x02FE`, type `0x10` and a payload of 100 bytes `AB` renders with the length
field ` 100`, four characters, so the text begins `0001->02FE[10] 100: ` and
has 220 characters, one more than the text with a length field of exactly 3
characters. -/
theorem String_length_field_counterexample :
    (((((NewMessageFactory 0x22 7).SetSource 1).SetDestination 0x02FE).SetType 0x10).SetPayload
        (List.replicate 100 0xAB)).String
        ≠ specString (((((NewMessageFactory 0x22 7).SetSource 1).SetDestination 0x02FE).SetType
            0x10).SetPayload (List.replicate 100 0xAB)) ∧
      (((((NewMessageFactory 0x22 7).SetSource 1).SetDestination 0x02FE).SetType 0x10).SetPayload
        (List.replicate 100 0xAB)).String.data.take 20
        = "0001->02FE[10] 100: ".data ∧
      (((((NewMessageFactory 0x22 7).SetSource 1).SetDestination 0x02FE).SetType 0x10).SetPayload
        (List.replicate 100 0xAB)).String.length = 220 ∧
      (specString (((((NewMessageFactory 0x22 7).SetSource 1).SetDestination 0x02FE).SetType
        0x10).SetPayload (List.replicate 100 0xAB))).length = 219 := by
  refine ⟨?_, ?_, ?_, ?_⟩ <;> decide

/-- C14 as amended: for every message with a payload of at most 247 bytes,
whose fields are in the range of their Go types and whose `Source()` is its
stored source, `String()` is the source as 4 uppercase hex digits, `->`, the
destination as 4 uppercase hex digits, `[`, the type as 2 uppercase hex digits,
`]`, the length field, `: ` and the payload as uppercase hex without
separators; the length field is a space in the sign position followed by the
decimal length, padded on the left with spaces to 3 characters, so it has 3
characters for lengths below 100 and 4 from 100 on, and the text is the one
with a 3-character length field exactly when the length is below 100. -/
theorem String_format (m : Message) (hlen : m.Payload.length ≤ 247)
    (hsrc : m.Source = m.source) (hS : m.Source < 65536) (hD : m.Destination < 65536)
    (hT : m.Type < 256) (hP : ∀ b ∈ m.Payload, b < 256) :
    m.String
        = ⟨hex4 m.Source ++ ['-', '>'] ++ hex4 m.Destination ++ ['['] ++ hex2 m.Type ++ [']'] ++
            signedLengthField m.Payload.length ++ [':', ' '] ++ hexBytes m.Payload⟩ ∧
      (signedLengthField m.Payload.length).length
        = (if m.Payload.length < 100 then 3 else 4) ∧
      (m.String = specString m ↔ m.Payload.length < 100) := by
  have hs : m.String
      = ⟨hex4 m.Source ++ ['-', '>'] ++ hex4 m.Destination ++ ['['] ++ hex2 m.Type ++ [']'] ++
          signedLengthField m.Payload.length ++ [':', ' '] ++ hexBytes m.Payload⟩ := by
    rw [String_eq m (hsrc ▸ hS) hD hT hP (by omega), hsrc]
    rfl
  have hl : (signedLengthField m.Payload.length).length
      = (if m.Payload.length < 100 then 3 else 4) := by
    unfold signedLengthField
    split_ifs <;> first | rfl | omega
  refine ⟨hs, hl, ?_⟩
  rw [hs]
  unfold specString
  constructor
  · intro h
    by_contra hge
    have h3 := congrArg String.length h
    simp only [String.length, List.length_append, hl, if_neg hge] at h3
    simp [rightJustified3] at h3
  · intro hlt
    have e : signedLengthField m.Payload.length = rightJustified3 m.Payload.length := by
      unfold signedLengthField rightJustified3
      by_cases h10 : m.Payload.length < 10
      · have a : m.Payload.length % 10 = m.Payload.length := by omega
        simp [h10, hlt, a]
      · have a : m.Payload.length / 10 % 10 = m.Payload.length / 10 := by omega
        simp [h10, hlt, a]
    rw [e]

/-- C14 as amended, on the example of the specification: source `0x0001`,
destination `0x02FE`, type `0x10`, payload `AB CD` renders as
`0001->02FE[10]  2: ABCD`. -/
theorem String_format_witness :
    (((((NewMessageFactory 0x22 7).SetSource 1).SetDestination 0x02FE).SetType 0x10).SetPayload
        [0xAB, 0xCD]).Payload.length ≤ 247 ∧
      (((((NewMessageFactory 0x22 7).SetSource 1).SetDestination 0x02FE).SetType 0x10).SetPayload
        [0xAB, 0xCD]).String = "0001->02FE[10]  2: ABCD" :=
  ⟨by decide,
    (String_format
      (((((NewMessageFactory 0x22 7).SetSource 1).SetDestination 0x02FE).SetType 0x10).SetPayload
        [0xAB, 0xCD])
      (by decide) (by decide) (by decide) (by decide) (by decide) (by decide)).1.trans
      (by decide)⟩

/-- C15 (defaults are immutable): every call, a setter, a payload assignment,
`Serialize`, `String`, `Deserialize` whether it fails or not, and `New` (whose
product carries the defaults of its receiver), leaves `defaultSource` and
`defaultGroup` as they are; hence every message reached from
`NewMessageFactory g s` by any sequence of calls has defaults `g` and `s`. -/
theorem defaults_immutable (m : Message) (op : Op) (ops : List Op) (data : List Nat)
    (g s : Nat) :
    (op.apply m).defaultSource = m.defaultSource ∧
      (op.apply m).defaultGroup = m.defaultGroup ∧
      (m.Deserialize data).1.defaultSource = m.defaultSource ∧
      (m.Deserialize data).1.defaultGroup = m.defaultGroup ∧
      (runOps m ops).defaultSource = m.defaultSource ∧
      (runOps m ops).defaultGroup = m.defaultGroup ∧
      (runOps (NewMessageFactory g s) ops).defaultSource = s ∧
      (runOps (NewMessageFactory g s) ops).defaultGroup = g :=
  ⟨(Op.apply_defaults m op).1, (Op.apply_defaults m op).2,
    (Deserialize_defaults m data).1, (Deserialize_defaults m data).2,
    (runOps_defaults ops m).1, (runOps_defaults ops m).2,
    (runOps_defaults ops (NewMessageFactory g s)).1,
    (runOps_defaults ops (NewMessageFactory g s)).2⟩

/-- C16 (the dispatch marker is ignored on decode): two inputs that differ only
in byte 0 give, from the same message state, the same result of `Deserialize`:
the same error or no error, and the same message afterwards; so no value of
byte 0 is rejected that the value 0 is not. -/
theorem Deserialize_ignores_dispatch (self : Message) (d0 e0 : Nat) (rest : List Nat) :
    self.Deserialize (d0 :: rest) = self.Deserialize (e0 :: rest) := by
  rcases rest with _ | ⟨d1, _ | ⟨d2, _ | ⟨d3, _ | ⟨d4, _ | ⟨d5, _ | ⟨d6, _ | ⟨d7, rest⟩⟩⟩⟩⟩⟩⟩
  case cons.cons.cons.cons.cons.cons.cons =>
    rw [Deserialize_header, Deserialize_header]
  all_goals
    simp [Message.Deserialize, NewReader, binaryReadUint8, binaryReadUint16, ReadFull,
      Reader.Read, Reader.Len]

/-- C17 (plain get/set and setter frame): `Type()` after `SetType(v)` is `v`
and `Destination()` after `SetDestination(v)` is `v`; each of the four setters
leaves the results of the other three getters, the payload and both defaults
as they were. -/
theorem setters_frame (m : Message) (v : Nat) :
    (m.SetType v).Type = v ∧ (m.SetDestination v).Destination = v ∧
      ((m.SetType v).Destination = m.Destination ∧ (m.SetType v).Source = m.Source ∧
        (m.SetType v).Group = m.Group ∧ (m.SetType v).Payload = m.Payload ∧
        (m.SetType v).defaultSource = m.defaultSource ∧
        (m.SetType v).defaultGroup = m.defaultGroup) ∧
      ((m.SetDestination v).Type = m.Type ∧ (m.SetDestination v).Source = m.Source ∧
        (m.SetDestination v).Group = m.Group ∧ (m.SetDestination v).Payload = m.Payload ∧
        (m.SetDestination v).defaultSource = m.defaultSource ∧
        (m.SetDestination v).defaultGroup = m.defaultGroup) ∧
      ((m.SetSource v).Type = m.Type ∧ (m.SetSource v).Destination = m.Destination ∧
        (m.SetSource v).Group = m.Group ∧ (m.SetSource v).Payload = m.Payload ∧
        (m.SetSource v).defaultSource = m.defaultSource ∧
        (m.SetSource v).defaultGroup = m.defaultGroup) ∧
      ((m.SetGroup v).Type = m.Type ∧ (m.SetGroup v).Destination = m.Destination ∧
        (m.SetGroup v).Source = m.Source ∧ (m.SetGroup v).Payload = m.Payload ∧
        (m.SetGroup v).defaultSource = m.defaultSource ∧
        (m.SetGroup v).defaultGroup = m.defaultGroup) :=
  ⟨rfl, rfl, ⟨rfl, rfl, rfl, rfl, rfl, rfl⟩, ⟨rfl, rfl, rfl, rfl, rfl, rfl⟩,
    ⟨rfl, rfl, rfl, rfl, rfl, rfl⟩, ⟨rfl, rfl, rfl, rfl, rfl, rfl⟩⟩

/-- C18 (exact acceptance condition of the decoder): `Deserialize` returns no
error exactly when the input has at least 9 bytes and the count of bytes after
the header, reduced mod 256, equals the byte at offset 5. -/
theorem Deserialize_accepts_iff (self : Message) (data : List Nat) :
    (self.Deserialize data).2 = none ↔
      9 ≤ data.length ∧ (data.length - 8) % 256 = data.getD 5 0 := by
  by_cases hlen : data.length < 8
  · rcases Deserialize_short self data hlen with h1 | h1
    · rw [h1]
      constructor
      · intro h
        simp at h
      · intro h
        omega
    · rw [h1]
      constructor
      · intro h
        simp at h
      · intro h
        omega
  · obtain ⟨d0, d1, d2, d3, d4, d5, d6, d7, rest, rfl⟩ := exists_header data (by omega)
    rw [Deserialize_header]
    simp only [List.length_cons, List.getD_cons_succ, List.getD_cons_zero]
    have e : rest.length + 1 + 1 + 1 + 1 + 1 + 1 + 1 + 1 - 8 = rest.length := by omega
    rw [e]
    by_cases c1 : rest.length % 256 ≠ d5
    · rw [if_pos c1]
      constructor
      · intro h
        simp at h
      · intro h
        exact absurd h.2 c1
    · rw [if_neg c1]
      by_cases c2 : rest = []
      · rw [if_pos c2]
        constructor
        · intro h
          simp at h
        · intro h
          rw [c2] at h
          simp at h
      · rw [if_neg c2]
        have hpos : 0 < rest.length := List.length_pos.mpr c2
        constructor
        · intro _
          exact ⟨by omega, not_not.mp c1⟩
        · intro _
          rfl

/-- C19 (re-encoding a decoded frame): for every input of bytes of at most 255
bytes on which `Deserialize`, into any message, returns no error, `Serialize`
of the decoded message returns no error and the input with byte 0 replaced by
`0x00`; so it returns the input itself when byte 0 of the input is 0. -/
theorem Serialize_Deserialize (self : Message) (data : List Nat)
    (h : (self.Deserialize data).2 = none) (hlen : data.length ≤ 255)
    (hb : ∀ b ∈ data, b < 256) :
    (self.Deserialize data).1.Serialize = (data.set 0 0, none) ∧
      (data.getD 0 0 = 0 → (self.Deserialize data).1.Serialize = (data, none)) := by
  by_cases hs : data.length < 8
  · rcases Deserialize_short self data hs with h1 | h1 <;> rw [h1] at h <;> simp at h
  · obtain ⟨d0, d1, d2, d3, d4, d5, d6, d7, rest, rfl⟩ := exists_header data (by omega)
    rw [Deserialize_header] at h ⊢
    by_cases c1 : rest.length % 256 ≠ d5
    · rw [if_pos c1] at h
      simp at h
    · rw [if_neg c1] at h ⊢
      by_cases c2 : rest = []
      · rw [if_pos c2] at h
        simp at h
      · rw [if_neg c2]
        simp only [List.length_cons] at hlen
        have c3 : rest.length % 256 = d5 := not_not.mp c1
        have c4 : rest.length = d5 := by omega
        have b1 : d1 < 256 := hb d1 (by simp)
        have b2 : d2 < 256 := hb d2 (by simp)
        have b3 : d3 < 256 := hb d3 (by simp)
        have b4 : d4 < 256 := hb d4 (by simp)
        have e1 : (d1 * 256 + d2) / 256 % 256 = d1 := by omega
        have e2 : (d1 * 256 + d2) % 256 = d2 := by omega
        have e3 : (d3 * 256 + d4) / 256 % 256 = d3 := by omega
        have e4 : (d3 * 256 + d4) % 256 = d4 := by omega
        have key : Message.Serialize
            { destination := d1 * 256 + d2, source := d3 * 256 + d4, sourceSet := true,
              group := d6, groupSet := true, ptype := d7, Payload := rest,
              defaultSource := self.defaultSource, defaultGroup := self.defaultGroup }
            = (0 :: d1 :: d2 :: d3 :: d4 :: d5 :: d6 :: d7 :: rest, none) := by
          rw [Serialize_of_le _ (by show rest.length ≤ 247; omega)]
          simp [Message.Destination, Message.Source, Message.Group, Message.Type, e1, e2, e3,
            e4, c4]
        rw [key]
        refine ⟨by simp, ?_⟩
        intro h0
        simp only [List.getD_cons_zero] at h0
        rw [h0]

/-- C19 on the example of the specification: the 11 bytes
`00 00 02 00 01 03 22 05 01 02 03` decode and encode to themselves. -/
theorem Serialize_Deserialize_witness :
    ((NewMessageFactory 7 9).Deserialize [0, 0, 2, 0, 1, 3, 0x22, 5, 1, 2, 3]).2 = none ∧
      ([0, 0, 2, 0, 1, 3, 0x22, 5, 1, 2, 3] : List Nat).length ≤ 255 ∧
      (∀ b ∈ ([0, 0, 2, 0, 1, 3, 0x22, 5, 1, 2, 3] : List Nat), b < 256) ∧
      ((NewMessageFactory 7 9).Deserialize [0, 0, 2, 0, 1, 3, 0x22, 5, 1, 2, 3]).1.Serialize
        = ([0, 0, 2, 0, 1, 3, 0x22, 5, 1, 2, 3], none) :=
  ⟨by rw [Deserialize_header]; decide, by decide, by decide,
    (Serialize_Deserialize (NewMessageFactory 7 9) [0, 0, 2, 0, 1, 3, 0x22, 5, 1, 2, 3]
      (by rw [Deserialize_header]; decide) (by decide) (by decide)).2 (by decide)⟩

/-- C20 (round trip for non-empty payloads): for every message `M` with a
payload of 1 to 247 bytes, whose destination and resolved source are 16-bit
values, and every target message `T`, `Serialize(M)` returns no error,
`Deserialize` of its output into `T` returns no error, and afterwards the
`Destination()`, `Source()`, `Group()`, `Type()` and `Payload` of `T` are those
of `M`, whatever the defaults and the state of `T` were. -/
theorem roundtrip_nonempty (M T : Message) (h1 : 1 ≤ M.Payload.length)
    (h2 : M.Payload.length ≤ 247) (hD : M.Destination < 65536) (hS : M.Source < 65536) :
    M.Serialize.2 = none ∧
      (T.Deserialize M.Serialize.1).2 = none ∧
      (T.Deserialize M.Serialize.1).1.Destination = M.Destination ∧
      (T.Deserialize M.Serialize.1).1.Source = M.Source ∧
      (T.Deserialize M.Serialize.1).1.Group = M.Group ∧
      (T.Deserialize M.Serialize.1).1.Type = M.Type ∧
      (T.Deserialize M.Serialize.1).1.Payload = M.Payload := by
  have c1 : ¬ (M.Payload.length % 256 ≠ M.Payload.length) := by
    rw [Nat.mod_eq_of_lt (by omega)]
    simp
  have c2 : M.Payload ≠ [] := List.length_pos.mp (by omega)
  have e1 : M.Destination / 256 % 256 * 256 + M.Destination % 256 = M.Destination := by omega
  have e2 : M.Source / 256 % 256 * 256 + M.Source % 256 = M.Source := by omega
  rw [Serialize_of_le M h2]
  simp only [List.cons_append, List.nil_append]
  rw [Deserialize_header, if_neg c1, if_neg c2]
  simp [Message.Destination, Message.Source, Message.Group, Message.Type]
  exact ⟨e1, e2⟩

/-- C20 on the example of the specification: the message of the factory
`(0x22, 0x0001)` with destination 2, type 5 and payload `[1, 2, 3]`, decoded
into a fresh message of a factory with other defaults `(7, 9)`. -/
theorem roundtrip_nonempty_witness :
    1 ≤ ((((NewMessageFactory 0x22 1).New.SetDestination 2).SetType 5).SetPayload
        [1, 2, 3]).Payload.length ∧
      ((NewMessageFactory 7 9).New.Deserialize
        ((((NewMessageFactory 0x22 1).New.SetDestination 2).SetType 5).SetPayload
          [1, 2, 3]).Serialize.1).2 = none ∧
      ((NewMessageFactory 7 9).New.Deserialize
        ((((NewMessageFactory 0x22 1).New.SetDestination 2).SetType 5).SetPayload
          [1, 2, 3]).Serialize.1).1.Source = 1 ∧
      ((NewMessageFactory 7 9).New.Deserialize
        ((((NewMessageFactory 0x22 1).New.SetDestination 2).SetType 5).SetPayload
          [1, 2, 3]).Serialize.1).1.Group = 0x22 :=
  ⟨by decide,
    (roundtrip_nonempty
      ((((NewMessageFactory 0x22 1).New.SetDestination 2).SetType 5).SetPayload [1, 2, 3])
      (NewMessageFactory 7 9).New (by decide) (by decide) (by decide) (by decide)).2.1,
    (roundtrip_nonempty
      ((((NewMessageFactory 0x22 1).New.SetDestination 2).SetType 5).SetPayload [1, 2, 3])
      (NewMessageFactory 7 9).New (by decide) (by decide) (by decide) (by decide)).2.2.2.1,
    (roundtrip_nonempty
      ((((NewMessageFactory 0x22 1).New.SetDestination 2).SetType 5).SetPayload [1, 2, 3])
      (NewMessageFactory 7 9).New (by decide) (by decide) (by decide) (by decide)).2.2.2.2.1⟩

end SFConnection
